import Mathlib

/-!
# A verification of the `toflush` batch-transform stream stage

This file is a shallow embedding, in Lean 4, of the core logic of
`src/toflush.js`: a single object-mode Transform stage that buffers every
incoming item, invokes a user callback once with the whole buffer at flush
time, re-emits the callback's result (element-wise when it is an Array,
as a single unit otherwise), and wraps any callback failure into a named
error.

The embedding follows the source line by line:
* `transformStep` embeds the per-item `transform(obj, _, next)` handler
  (lines 113-121), including the content-stream gate and the fact that the
  property read `obj.isStream` throws a TypeError when `obj` is nullish.
* `runAccept` iterates `transformStep` over an input sequence, stopping when
  the handler fails the stream or throws, as the host stream machinery does.
* `settle` embeds `new Promise(resolve => resolve(callback.call(stream, items)))`
  (line 125): a synchronous return and a resolved promise both land in the
  `then` branch; a synchronous throw and a rejected promise both land in the
  `catch` branch.
* `flushEmits` embeds the `Array.isArray` branch of `flush` (lines 126-132).
* `normalizeFail` embeds the `catch` body (lines 136-140): reuse of an `Error`
  instance versus `new Error()`, followed by the `copy.message = name + ': ' +
  (err.message || err)` assignment — which throws on a nullish failure value,
  crashing the handler before anything is delivered.
* `resolveName` embeds `name = options.name || callback.name || toflush.name`
  (line 109), and `construct` embeds the argument validation of the
  constructor (lines 98-107).

JavaScript values are modelled only as finely as the code inspects them:
an item is either nullish or an object with an optional `isStream` method;
a failure value is an `Error` instance, a non-nullish raw value carrying an
optional `message` property and a string conversion, or a nullish value —
on which the property read `err.message` at line 138 itself throws, so the
`catch` handler crashes and no error is ever delivered; a callback result is
an Array, a string, `undefined`, a non-Array iterable, or an opaque object.
-/

/-- An item flowing through the object-mode stream.  The only attributes the
stage reads are whether the item is nullish (`obj.isStream` then throws) and,
otherwise, the optional `isStream` method: `none` models an object with no
`isStream` function, `some b` an object whose `isStream()` returns `b`.
The `payload` field carries the item's identity (e.g. `{value: 0}`). -/
inductive Item where
  | nullish : Item
  | obj (isStream : Option Bool) (payload : Nat) : Item
  deriving DecidableEq, Repr

/-- A value the callback can fail with: an `Error` instance carrying its
`message` string, a non-nullish raw value carrying an optional `message`
property and its string conversion, or a nullish value (`undefined` or
`null`, e.g. from a bare `Promise.reject()`), on which any property read —
in particular `err.message` at line 138 — throws a TypeError. -/
inductive FailVal where
  | errVal (message : String) : FailVal
  | rawVal (message : Option String) (toStr : String) : FailVal
  | nullish : FailVal
  deriving DecidableEq, Repr

/-- `err instanceof Error` for a failure value (`false` for a nullish one:
`instanceof` does not throw on nullish left operands). -/
def isErrFail : FailVal → Bool
  | .errVal _ => true
  | .rawVal _ _ => false
  | .nullish => false

/-- String conversion of a failure value, as performed by the JavaScript
concatenation `name + ': ' + (err.message || err)` when the right operand is
the failure value itself.  `Error.prototype.toString` yields `"Error"` for an
empty message and `"Error: " ++ m` otherwise.  The nullish case is the
conversion `String(undefined)`; line 138 never reaches it, because the read
`err.message` has already thrown — it only feeds the claim-side readings
below. -/
def failToString : FailVal → String
  | .errVal m => if m = "" then "Error" else "Error: " ++ m
  | .rawVal _ s => s
  | .nullish => "undefined"

/-- The `message` property of a failure value: every `Error` has one (possibly
the empty string); a raw value may or may not; a nullish value has none (in
JavaScript the read does not even return `undefined` — it throws, which
`normalizeFail` accounts for separately). -/
def failMessage : FailVal → Option String
  | .errVal m => some m
  | .rawVal m _ => m
  | .nullish => none

/-- Embeds `err.message || err` from line 138 for the failure values on which
that expression evaluates (all non-nullish ones): the `message` property when
it is truthy (a non-empty string), otherwise the failure value itself, which
the surrounding concatenation converts to text. -/
def messageOrSelf (e : FailVal) : String :=
  match failMessage e with
  | some m => if m = "" then failToString e else m
  | none => failToString e

/-- A value the callback's settled result can be.  Arrays are the one shape
`Array.isArray` recognizes; strings, non-Array iterables and plain objects are
distinct constructors precisely because the code must not spread them. -/
inductive ResultVal where
  | arr (elems : List ResultVal) : ResultVal
  | str (s : String) : ResultVal
  | undef : ResultVal
  | iter (elems : List ResultVal) : ResultVal
  | obj (id : Nat) : ResultVal

/-- `Array.isArray` on a settled result. -/
def isArr : ResultVal → Bool
  | .arr _ => true
  | _ => false

/-- The outcome of one callback invocation, before the `Promise` wrapper
unifies the channels: the callback may return a value, throw synchronously,
or return a promise that resolves or rejects. -/
inductive CbOutcome where
  | syncReturn (v : ResultVal) : CbOutcome
  | syncThrow (e : FailVal) : CbOutcome
  | asyncResolve (v : ResultVal) : CbOutcome
  | asyncReject (e : FailVal) : CbOutcome

/-- Embeds `new Promise(resolve => resolve(callback.call(stream, items)))`
(line 125): a synchronous throw inside the executor rejects the promise, and
`resolve` of a returned promise adopts its state, so the four outcomes
collapse into settled success or settled failure. -/
def settle : CbOutcome → Except FailVal ResultVal
  | .syncReturn v => .ok v
  | .syncThrow e => .error e
  | .asyncResolve v => .ok v
  | .asyncReject e => .error e

/-- The error object handed to `done` by the `catch` branch.
`reusedOriginal` records whether it is the original failure value itself
(`err instanceof Error` held) or a fresh `new Error()`. -/
structure DeliveredError where
  reusedOriginal : Bool
  message : String
  deriving DecidableEq, Repr

/-- Embeds the `catch` body of `flush` (lines 136-138): first
`var copy = err instanceof Error ? err : new Error();` — reusing the original
error with its prior message, or a fresh error whose message is empty — then
the overwrite `copy.message = name + ': ' + (err.message || err)`.  For a
nullish failure value the `copy` is constructed (nullish is not an `Error`
instance), but the read `err.message` in the assignment throws a TypeError:
the `catch` handler itself crashes, `copy` is discarded and nothing is ever
handed to `done` — the result is `none`. -/
def normalizeFail (name : String) (e : FailVal) : Option DeliveredError :=
  let copy : DeliveredError :=
    match e with
    | .errVal m => { reusedOriginal := true, message := m }
    | _ => { reusedOriginal := false, message := "" }
  match e with
  | .nullish => none
  | _ => some { copy with message := name ++ ": " ++ messageOrSelf e }

/-- Embeds the success branch of `flush` (lines 126-132): when
`Array.isArray(result)` the loop `for (var r of result) stream.push(r)` emits
each element in order; otherwise `stream.push(result)` emits the single
value. -/
def flushEmits (result : ResultVal) : List ResultVal :=
  if _h : isArr result then
    match result with
    | .arr es => es
    | _ => []
  else [result]

/-- The observable outcome of the flush phase: `completed emitted` is the
downstream pushes followed by `done(null)`; `failed err` is the
`setImmediate(() => done(copy))` delivery of the normalized error;
`crashedCatch` is the nullish-failure case in which the `catch` handler
itself threw, so `done` is never invoked, nothing reaches the failure
channel, and the host runtime is left with an unhandled rejection. -/
inductive FlushOut where
  | completed (emitted : List ResultVal) : FlushOut
  | failed (err : DeliveredError) : FlushOut
  | crashedCatch : FlushOut

/-- The whole `flush` handler (lines 122-142) for a given settled callback
outcome. -/
def flushRun (name : String) (out : CbOutcome) : FlushOut :=
  match settle out with
  | .ok result => .completed (flushEmits result)
  | .error e =>
    match normalizeFail name e with
    | some copy => .failed copy
    | none => .crashedCatch

/-- The failure message of the content-stream gate (line 116). -/
def gateMessage (name : String) : String :=
  name ++ ": content streams are not enabled"

/-- The outcome of the per-item `transform` handler on one arriving item:
`ok buffer` is `items.push(obj); next(null)`, `failNext msg` is
`next(new Error(msg))`, and `thrown` is the TypeError raised by reading
`obj.isStream` off a nullish item. -/
inductive StepOutcome where
  | ok (buffer : List Item) : StepOutcome
  | failNext (msg : String) : StepOutcome
  | thrown : StepOutcome
  deriving DecidableEq, Repr

/-- Embeds the per-item `transform` handler (lines 113-121).  The guard is
`typeof obj.isStream == 'function' && obj.isStream() && !options.stream`:
it holds exactly when the method exists, returns `true`, and the `stream`
option is off.  Reading `obj.isStream` on a nullish item throws before either
branch is reached. -/
def transformStep (name : String) (streamOpt : Bool) (buffer : List Item) :
    Item → StepOutcome
  | .nullish => .thrown
  | .obj is v =>
    if is = some true ∧ streamOpt = false then .failNext (gateMessage name)
    else .ok (buffer ++ [.obj is v])

/-- The accepting phase over a whole input sequence: `allOk buffer` when every
item was buffered, `gateFail buffer msg` when the gate fired (the failing item
is not buffered and no later item is processed), `crashed buffer` when the
handler threw on a nullish item. -/
inductive AcceptOutcome where
  | allOk (buffer : List Item) : AcceptOutcome
  | gateFail (buffer : List Item) (msg : String) : AcceptOutcome
  | crashed (buffer : List Item) : AcceptOutcome
  deriving DecidableEq, Repr

/-- Runs `transformStep` over the input items in arrival order, stopping at
the first failure, as the host stream stops calling `transform` once `next`
received an error or the handler threw. -/
def runAccept (name : String) (streamOpt : Bool) (buffer : List Item) :
    List Item → AcceptOutcome
  | [] => .allOk buffer
  | item :: rest =>
    match transformStep name streamOpt buffer item with
    | .ok buffer2 => runAccept name streamOpt buffer2 rest
    | .failNext msg => .gateFail buffer msg
    | .thrown => .crashed buffer

/-- The observable result of one whole run of a stage instance:
either the accepting phase ended it (gate failure or thrown TypeError, the
callback never runs), or end-of-input fired `flush`, which invoked the
callback once with `cbArg` and produced `out`. -/
inductive StageResult where
  | failedAccept (msg : String) : StageResult
  | crashedAccept : StageResult
  | flushed (cbArg : List Item) (out : FlushOut) : StageResult

/-- One full run of a stage: accept every input item in order starting from
the empty buffer created at construction (line 94), then, on end-of-input,
run `flush`, which invokes the callback exactly once with the whole buffer. -/
def runStage (name : String) (streamOpt : Bool) (cb : List Item → CbOutcome)
    (input : List Item) : StageResult :=
  match runAccept name streamOpt [] input with
  | .allOk buffer => .flushed buffer (flushRun name (cb buffer))
  | .gateFail _ msg => .failedAccept msg
  | .crashed _ => .crashedAccept

/-- The arguments of the callback invocations a run performed: one invocation
(with the flushed buffer) when the run reached `flush`, none otherwise. -/
def invocations : StageResult → List (List Item)
  | .flushed cbArg _ => [cbArg]
  | _ => []

/-- The constructor's argument (line 93): a bare function (with its declared
name, `""` for an anonymous one), an options record whose `callback` field is
a function (`some declaredName`) or absent/not a function (`none`), or any
non-function value without a `callback` function (null, undefined, a number,
…). -/
inductive CtorArg where
  | fn (declaredName : String) : CtorArg
  | record (callback : Option String) (nameField : Option String)
      (stream : Bool) : CtorArg
  | nonFunction : CtorArg
  deriving DecidableEq, Repr

/-- Embeds `name = options.name || callback.name || toflush.name` (line 109):
`||` skips falsy values, and among strings (or an absent property) exactly the
empty string and `undefined` are falsy; `toflush.name` is `"toflush"`. -/
def resolveName (nameField : Option String) (cbName : String) : String :=
  let n := nameField.getD ""
  if n ≠ "" then n else if cbName ≠ "" then cbName else "toflush"

/-- The state a successful construction fixes: the resolved diagnostic name,
the `stream` gate, and the callback's declared name (standing for the
callback's identity). -/
structure Stage where
  name : String
  streamOpt : Bool
  cbName : String
  deriving DecidableEq, Repr

/-- Embeds the constructor's validation (lines 98-107): a bare function is
accepted with `options = {stream: false}`; otherwise
`callback = options && options.callback` must be a function or
`throw new TypeError('callback must be a function')` fires synchronously. -/
def construct : CtorArg → Except String Stage
  | .fn dn => .ok { name := resolveName none dn, streamOpt := false, cbName := dn }
  | .record (some dn) nf s =>
      .ok { name := resolveName nf dn, streamOpt := s, cbName := dn }
  | .record none _ _ => .error "callback must be a function"
  | .nonFunction => .error "callback must be a function"

/-- Whether a usable transformation function can be resolved from the
constructor argument: the argument itself when it is a function, else its
`callback` field when that is a function. -/
def resolvableCallback : CtorArg → Option String
  | .fn dn => some dn
  | .record cb _ _ => cb
  | .nonFunction => none

/-- The claim's reading of name resolution, stated over an explicit name
field and an optional declared function name: the explicit field whenever
present, else the declared name whenever present, else `"toflush"`. -/
def specResolveName (nameField declaredName : Option String) : String :=
  match nameField with
  | some n => n
  | none =>
    match declaredName with
    | some c => c
    | none => "toflush"

/-- The amended reading of name resolution: the explicit name field when
present and non-empty, else the declared function name when present and
non-empty, else `"toflush"`. -/
def amendedResolveName (nameField declaredName : Option String) : String :=
  match nameField with
  | some n =>
    if n ≠ "" then n
    else match declaredName with
         | some c => if c ≠ "" then c else "toflush"
         | none => "toflush"
  | none =>
    match declaredName with
    | some c => if c ≠ "" then c else "toflush"
    | none => "toflush"

/-- The claim's reading of `<originalMessageOrValue>`: the failure's
`message` attribute whenever the failure has one, otherwise the raw failure
value converted to text. -/
def specMessageOrSelf (e : FailVal) : String :=
  match failMessage e with
  | some m => m
  | none => failToString e

/-- The amended reading of `<originalMessageOrValue>`: the failure's
`message` attribute when it is present and non-empty, otherwise the raw
failure value converted to text. -/
def amendedMessageOrSelf (e : FailVal) : String :=
  match failMessage e with
  | some m => if m = "" then failToString e else m
  | none => failToString e

/-- The message of the error a flush outcome delivered on the failure
channel, `none` when the flush completed successfully or when the `catch`
handler crashed and delivered nothing. -/
def deliveredMessage : FlushOut → Option String
  | .completed _ => none
  | .failed d => some d.message
  | .crashedCatch => none

/-- Whether construction succeeded (no synchronous TypeError). -/
def constructSucceeds (a : CtorArg) : Bool :=
  match construct a with
  | .ok _ => true
  | .error _ => false

/-- If the accepting phase ends with every item buffered, the final buffer is
the initial buffer followed by the whole input, in arrival order. -/
theorem runAccept_allOk_eq (name : String) (s : Bool) :
    ∀ (l acc buf : List Item),
      runAccept name s acc l = AcceptOutcome.allOk buf → buf = acc ++ l := by
  intro l
  induction l with
  | nil =>
    intro acc buf h
    simp only [runAccept, AcceptOutcome.allOk.injEq] at h
    simp [h]
  | cons item rest ih =>
    intro acc buf h
    cases item with
    | nullish => simp [runAccept, transformStep] at h
    | obj is v =>
      by_cases hc : is = some true ∧ s = false
      · simp [runAccept, transformStep, hc] at h
      · simp only [runAccept, transformStep, if_neg hc] at h
        have := ih (acc ++ [Item.obj is v]) buf h
        simp [this]

/-- C1: for every run in which all N input items (N ≥ 0) are accepted without
triggering the content-stream gate (and without a thrown property access),
the user callback is invoked exactly once, at the end-of-input `flush`, with
the ordered sequence of exactly those N items in arrival order — the empty
sequence when N = 0. -/
theorem toflush_callback_invoked_once_with_all_items
    (name : String) (s : Bool) (cb : List Item → CbOutcome)
    (input buf : List Item)
    (h : runAccept name s [] input = AcceptOutcome.allOk buf) :
    invocations (runStage name s cb input) = [input] := by
  have hb : buf = input := by simpa using runAccept_allOk_eq name s input [] buf h
  unfold runStage
  rw [h, hb]
  rfl

/-- Witness for C1 at a concrete run: three plain items, all accepted, and
the callback argument list of the run is exactly one invocation with the
three items in arrival order. -/
theorem toflush_callback_invoked_once_with_all_items_witness :
    invocations (runStage "toflush" false
        (fun _ => CbOutcome.syncReturn ResultVal.undef)
        [Item.obj none 0, Item.obj none 1, Item.obj none 2]) =
      [[Item.obj none 0, Item.obj none 1, Item.obj none 2]] :=
  toflush_callback_invoked_once_with_all_items "toflush" false
    (fun _ => CbOutcome.syncReturn ResultVal.undef)
    [Item.obj none 0, Item.obj none 1, Item.obj none 2]
    [Item.obj none 0, Item.obj none 1, Item.obj none 2] (by decide)

/-- C2: when the callback's outcome settles to an Array of K values, `flush`
emits exactly those K elements downstream, one push per element, in the
Array's order — never the Array as one unit — and then signals completion
(`FlushOut.completed` is the `done(null)` path); with K = 0 nothing is
emitted and completion is still signalled. -/
theorem toflush_array_result_emitted_elementwise
    (name : String) (out : CbOutcome) (es : List ResultVal)
    (h : settle out = Except.ok (ResultVal.arr es)) :
    flushRun name out = FlushOut.completed es := by
  unfold flushRun
  rw [h]
  simp [flushEmits, isArr]

/-- Witness for C2 at a concrete input: a callback returning the empty Array
emits zero items and completes. -/
theorem toflush_array_result_emitted_elementwise_witness :
    flushRun "toflush" (CbOutcome.syncReturn (ResultVal.arr [])) =
      FlushOut.completed [] :=
  toflush_array_result_emitted_elementwise "toflush"
    (CbOutcome.syncReturn (ResultVal.arr [])) [] rfl

/-- C6: when the callback's outcome settles to any non-Array value —
`undefined`, a string, a non-Array iterable, a plain object — `flush` pushes
exactly that one value downstream as a single unit; only `Array.isArray`
selects the element-wise branch. -/
theorem toflush_non_array_result_single_emit
    (name : String) (out : CbOutcome) (v : ResultVal)
    (h : settle out = Except.ok v) (hv : isArr v = false) :
    flushRun name out = FlushOut.completed [v] := by
  unfold flushRun
  rw [h]
  simp [flushEmits, hv]

/-- Witness for C6 at a concrete input: a callback resolving to `undefined`
emits exactly the one value `undefined`. -/
theorem toflush_non_array_result_single_emit_witness :
    flushRun "toflush" (CbOutcome.asyncResolve ResultVal.undef) =
      FlushOut.completed [ResultVal.undef] :=
  toflush_non_array_result_single_emit "toflush"
    (CbOutcome.asyncResolve ResultVal.undef) ResultVal.undef rfl rfl

/-- C10: the per-item acceptance step is not total over arbitrary items: on a
nullish arriving item the property read `obj.isStream` itself throws a
TypeError (`StepOutcome.thrown`, a constructor distinct from both the
gate-failure branch and the buffering branch), for every diagnostic name,
gate setting and buffer state, and the accepting phase crashes there with the
buffer unchanged and the remaining items unprocessed. -/
theorem toflush_nullish_item_throws
    (name : String) (s : Bool) (buf rest : List Item) :
    transformStep name s buf Item.nullish = StepOutcome.thrown ∧
    runAccept name s buf (Item.nullish :: rest) = AcceptOutcome.crashed buf :=
  ⟨rfl, rfl⟩

/-- C4: for every arriving object item while the stage is accepting: when the
item exposes `isStream`, the method returns `true`, and the `stream` option is
off, the stage fails with exactly the message
`"<name>: content streams are not enabled"`, does not buffer the item, and
processes no further items; in every other case — the method absent, or
returning `false`, or the option on — the item is appended to the buffer and
the stage keeps accepting the rest. -/
theorem toflush_content_stream_gate
    (name : String) (s : Bool) (buf : List Item)
    (is : Option Bool) (v : Nat) (rest : List Item) :
    (is = some true ∧ s = false →
      runAccept name s buf (Item.obj is v :: rest) =
        AcceptOutcome.gateFail buf (name ++ ": content streams are not enabled")) ∧
    (¬(is = some true ∧ s = false) →
      runAccept name s buf (Item.obj is v :: rest) =
        runAccept name s (buf ++ [Item.obj is v]) rest) := by
  constructor
  · intro hc
    simp [runAccept, transformStep, gateMessage, hc]
  · intro hc
    simp only [runAccept, transformStep, if_neg hc]

/-- Witness for C4 at concrete inputs: a stream-backed item with the gate off
fails with the exact message, leaves the buffer empty and drops the later
item; the same item with the gate on is buffered and the run keeps going. -/
theorem toflush_content_stream_gate_witness :
    runAccept "toflush" false [] [Item.obj (some true) 0, Item.obj none 1] =
      AcceptOutcome.gateFail [] "toflush: content streams are not enabled" ∧
    runAccept "toflush" true [] [Item.obj (some true) 0] =
      AcceptOutcome.allOk [Item.obj (some true) 0] := by
  constructor
  · exact (toflush_content_stream_gate "toflush" false [] (some true) 0
      [Item.obj none 1]).1 ⟨rfl, rfl⟩
  · have h := (toflush_content_stream_gate "toflush" true [] (some true) 0 []).2
      (by simp)
    simpa [runAccept] using h

/-- C7 counterexample: the claim says every transformation failure is
normalized into exactly one error value before delivery, but for a nullish
failure value (a bare `Promise.reject()`) the normalization itself aborts —
the read `err.message` at line 138 throws — so `done` is never invoked and
nothing at all is delivered on the failure channel. -/
theorem toflush_failure_normalized_once_counterexample :
    normalizeFail "toflush" FailVal.nullish = none ∧
    flushRun "toflush" (CbOutcome.asyncReject FailVal.nullish) =
      FlushOut.crashedCatch ∧
    deliveredMessage (flushRun "toflush" (CbOutcome.asyncReject FailVal.nullish)) =
      none :=
  ⟨rfl, rfl, rfl⟩

/-- C7 amended: every callback failure with a non-nullish failure value is
normalized at the point of capture into exactly one error value before
delivery: the flush outcome delivers precisely that normalized error value —
never the raw failure itself — the original value is reused exactly when it
was an `Error` instance, and its message is overwritten with the prefixed
message (a fresh `new Error()`, whose prior message is empty, is used
otherwise); on a nullish failure value the normalization itself throws and
nothing is delivered. -/
theorem toflush_failure_normalized_once_amended
    (name : String) (e : FailVal) (out : CbOutcome)
    (h : settle out = Except.error e) (hn : e ≠ FailVal.nullish) :
    normalizeFail name e =
      some { reusedOriginal := isErrFail e,
             message := name ++ ": " ++ messageOrSelf e } ∧
    flushRun name out =
      FlushOut.failed { reusedOriginal := isErrFail e,
                        message := name ++ ": " ++ messageOrSelf e } := by
  have hne : normalizeFail name e =
      some { reusedOriginal := isErrFail e,
             message := name ++ ": " ++ messageOrSelf e } := by
    cases e with
    | errVal m => rfl
    | rawVal mo s => rfl
    | nullish => exact absurd rfl hn
  refine ⟨hne, ?_⟩
  simp only [flushRun, h, hne]

/-- Witness for C7 (amended) at a concrete input: a rejection with the raw
string `"boom"` is normalized into a fresh (not reused) error value with the
prefixed message, and that one error value is what the flush delivers. -/
theorem toflush_failure_normalized_once_amended_witness :
    normalizeFail "toflush" (FailVal.rawVal none "boom") =
      some { reusedOriginal := isErrFail (FailVal.rawVal none "boom"),
             message := "toflush" ++ ": " ++
               messageOrSelf (FailVal.rawVal none "boom") } ∧
    flushRun "toflush" (CbOutcome.asyncReject (FailVal.rawVal none "boom")) =
      FlushOut.failed { reusedOriginal := isErrFail (FailVal.rawVal none "boom"),
                        message := "toflush" ++ ": " ++
                          messageOrSelf (FailVal.rawVal none "boom") } :=
  toflush_failure_normalized_once_amended "toflush" (FailVal.rawVal none "boom")
    (CbOutcome.asyncReject (FailVal.rawVal none "boom")) rfl (by decide)

/-- C8: construction fails exactly when no usable callback function can be
resolved from the argument — the argument itself when it is a function, else
a function in its `callback` field — and the failure is the synchronous
`throw new TypeError(...)` of the constructor (`Except.error` of `construct`,
a value the constructing code receives at call time, not a stream-channel
event); constructing from a bare function never fails. -/
theorem toflush_construction_validation (a : CtorArg) :
    constructSucceeds a = (resolvableCallback a).isSome ∧
    (∀ dn, constructSucceeds (CtorArg.fn dn) = true) := by
  refine ⟨?_, fun dn => rfl⟩
  cases a with
  | fn dn => rfl
  | record cb nf s => cases cb <;> rfl
  | nonFunction => rfl

/-- C3 counterexample, in two parts.  First, the claim reads the delivered
message as `"<name>: <message attribute when the failure has one>"`, but an
`Error` whose `message` attribute is the empty string — which it does have —
is delivered as `"toflush: Error"` (the string conversion of the error
itself), because line 138 tests `err.message || err` by truthiness, not by
presence.  Second, the claim quantifies over any failure value, but for a
nullish failure value (a bare `Promise.reject()`) no error with any message
is delivered at all: the read `err.message` at line 138 throws inside the
`catch` handler. -/
theorem toflush_error_message_claim_counterexample :
    (deliveredMessage (flushRun "toflush" (CbOutcome.syncThrow (FailVal.errVal ""))) =
      some "toflush: Error" ∧
    specMessageOrSelf (FailVal.errVal "") = "" ∧
    deliveredMessage (flushRun "toflush" (CbOutcome.syncThrow (FailVal.errVal ""))) ≠
      some ("toflush" ++ ": " ++ specMessageOrSelf (FailVal.errVal ""))) ∧
    deliveredMessage (flushRun "toflush" (CbOutcome.asyncReject FailVal.nullish)) =
      none := by
  refine ⟨⟨by decide, rfl, by decide⟩, rfl⟩

/-- C3 amended: for every non-nullish failure value, the delivered error's
message is `"<name>: <originalMessageOrValue>"`, where
`<originalMessageOrValue>` is the failure's `message` attribute when it is
present and non-empty, and otherwise the raw failure value converted to
text; a synchronous throw and an asynchronous rejection carrying the same
failure value produce identical flush outcomes, hence byte-identical
delivered messages; on a nullish failure value the `catch` handler itself
crashes and nothing is delivered. -/
theorem toflush_error_message_format_amended (name : String) (e : FailVal) :
    (e ≠ FailVal.nullish →
      flushRun name (CbOutcome.syncThrow e) =
        FlushOut.failed { reusedOriginal := isErrFail e,
                          message := name ++ ": " ++ amendedMessageOrSelf e }) ∧
    flushRun name (CbOutcome.syncThrow e) = flushRun name (CbOutcome.asyncReject e) ∧
    flushRun name (CbOutcome.syncThrow FailVal.nullish) = FlushOut.crashedCatch := by
  refine ⟨?_, rfl, rfl⟩
  intro hn
  cases e with
  | errVal m => rfl
  | rawVal mo s => rfl
  | nullish => exact absurd rfl hn

/-- Witness for C3 (amended) at a concrete input: a rejection with the raw
string `"boom"` — no `message` attribute — is delivered with the prefixed
string conversion, identically for the throw and the rejection route. -/
theorem toflush_error_message_format_amended_witness :
    flushRun "toflush" (CbOutcome.syncThrow (FailVal.rawVal none "boom")) =
      FlushOut.failed { reusedOriginal := isErrFail (FailVal.rawVal none "boom"),
                        message := "toflush" ++ ": " ++
                          amendedMessageOrSelf (FailVal.rawVal none "boom") } ∧
    flushRun "toflush" (CbOutcome.syncThrow (FailVal.rawVal none "boom")) =
      flushRun "toflush" (CbOutcome.asyncReject (FailVal.rawVal none "boom")) := by
  have h := toflush_error_message_format_amended "toflush" (FailVal.rawVal none "boom")
  exact ⟨h.1 (by decide), h.2.1⟩

/-- C5 counterexample: the claim gives the configuration record's explicit
`name` field absolute precedence, but line 109 tests `options.name` by
truthiness, so an explicit empty-string `name` field is skipped in favour of
the callback's declared name: construction with `{name: "", callback:
function dopedname}` resolves the diagnostic name to `"dopedname"`, not to
the explicit field's value `""`. -/
theorem toflush_name_resolution_claim_counterexample :
    construct (CtorArg.record (some "dopedname") (some "") false) =
      Except.ok { name := "dopedname", streamOpt := false, cbName := "dopedname" } ∧
    specResolveName (some "") (some "dopedname") = "" ∧
    resolveName (some "") "dopedname" ≠ specResolveName (some "") (some "dopedname") := by
  refine ⟨?_, rfl, by decide⟩
  have h : resolveName (some "") "dopedname" = "dopedname" := by decide
  simp [construct, h]

/-- C5 amended: `diagnosticName` is resolved once at construction with
precedence: the configuration record's explicit non-empty `name` field, else
the transformation function's non-empty declared name, else the fixed default
identifier `"toflush"` (an anonymous function's declared name is the empty
string, i.e. absent); and every failure message that is delivered — the
content-stream gate message and every normalized callback-failure message —
is the name so resolved, followed by `": "`, followed by the failure text. -/
theorem toflush_name_resolution_amended (nf : Option String) (cn : String) :
    resolveName nf cn =
      amendedResolveName nf (if cn = "" then none else some cn) ∧
    gateMessage (resolveName nf cn) =
      resolveName nf cn ++ ": " ++ "content streams are not enabled" ∧
    ∀ e copy, normalizeFail (resolveName nf cn) e = some copy →
      copy.message = resolveName nf cn ++ ": " ++ messageOrSelf e := by
  refine ⟨?_, ?_, ?_⟩
  · cases nf with
    | none =>
      by_cases hc : cn = "" <;> simp [resolveName, amendedResolveName, hc]
    | some n =>
      by_cases hn : n = "" <;> by_cases hc : cn = "" <;>
        simp [resolveName, amendedResolveName, hn, hc]
  · have h1 : (": " : String) ++ "content streams are not enabled" =
        ": content streams are not enabled" := by decide
    calc gateMessage (resolveName nf cn)
        = resolveName nf cn ++ (": " ++ "content streams are not enabled") := by
          rw [h1]; rfl
      _ = resolveName nf cn ++ ": " ++ "content streams are not enabled" :=
          (String.append_assoc ..).symm
  · intro e copy h
    cases e with
    | errVal m =>
      simp only [normalizeFail, Option.some.injEq] at h
      rw [← h]
    | rawVal mo s =>
      simp only [normalizeFail, Option.some.injEq] at h
      rw [← h]
    | nullish => simp [normalizeFail] at h

/-- Witness for C5 (amended) at a concrete input: with explicit name field
`"namefromoptions"` and callback name `"dopedname"` the explicit field wins,
and a concretely normalized failure message carries that prefix. -/
theorem toflush_name_resolution_amended_witness :
    DeliveredError.message
        { reusedOriginal := true, message := "namefromoptions: boom" } =
      resolveName (some "namefromoptions") "dopedname" ++ ": " ++
        messageOrSelf (FailVal.errVal "boom") :=
  (toflush_name_resolution_amended (some "namefromoptions") "dopedname").2.2
    (FailVal.errVal "boom")
    { reusedOriginal := true, message := "namefromoptions: boom" }
    (by decide)
